/-
  Verification of the Heater_Project temperature-controller firmware.

  The repository holds two Arduino sketches implementing a five-state
  heater FSM:
    * `src/unnamed/part_000` — LM75 I2C sensor variant ("LM75" namespace):
      target 40.0, hysteresis 2.0, overheat 50.0, a global overheat check
      placed after the per-state switch, a warning LED, and a -100.0
      sentinel returned on a failed sensor read.
    * `src/Project 1/Sourcecode1.cpp` — TMP36 analog variant ("TMP36"
      namespace): target 30.0, overheat 40.0, per-state overheat checks
      (strict >) in HEATING/STABILIZING/TARGET_REACHED only, recovery
      threshold targetTemp - 5, no warning LED.

  Temperatures (C++ float) are modelled as ℚ; `unsigned long` (u32)
  timestamps as ℕ with explicit mod-2^32 wraparound subtraction where the
  source subtracts. Each call of `loop` is modelled as a pure function of
  the controller state, the freshly read temperature and the current
  `millis()` value; digital pin writes are recorded as the last value
  written during the call (`none` when the call never writes the pin),
  and the number of `changeState` invocations is recorded to reason about
  the pairing of `currentState` and `stateStartTime` updates.
-/
import Mathlib

/-- The five FSM states shared by both sketches (`enum State` /
`enum HeaterState`). -/
inductive HState where
  | IDLE
  | HEATING
  | STABILIZING
  | TARGET_REACHED
  | OVERHEAT
deriving DecidableEq, Repr, Fintype

/-- The mutable controller variables: `currentState` and
`stateStartTime` (set together by `changeState`). -/
structure Ctrl where
  currentState : HState
  stateStartTime : ℕ
deriving DecidableEq, Repr

/-- Result of one `loop` call: the controller variables after the call,
the last value written to the heater pin during the call (`none` if the
call issued no heater write), the last value written to the warning-LED
pin, and how many times `changeState` was invoked. -/
structure TickResult where
  ctrl : Ctrl
  heaterWrite : Option Bool
  ledWrite : Option Bool
  csCalls : ℕ
deriving DecidableEq, Repr

/-- Result of `setup`: controller variables plus any pin writes issued
during initialization. -/
structure SetupResult where
  ctrl : Ctrl
  heaterWrite : Option Bool
  ledWrite : Option Bool
deriving DecidableEq, Repr

/-- `millis() - stateStartTime` computed in `unsigned long` (32-bit)
arithmetic: the wraparound difference mod 2^32. -/
def elapsed32 (now start : ℕ) : ℕ :=
  (now + (2 ^ 32 - start % 2 ^ 32)) % 2 ^ 32

namespace LM75

/-- `const float targetTemp = 40.0;` -/
def targetTemp : ℚ := 40

/-- `const float hysteresis = 2.0;` -/
def hysteresis : ℚ := 2

/-- `const float overheatTemp = 50.0;` -/
def overheatTemp : ℚ := 50

/-- `const unsigned long stabilizingTime = 5000;` -/
def stabilizingTime : ℕ := 5000

/-- `changeState(newState)`: sets `currentState = newState` and
`stateStartTime = millis()`. -/
def changeState (newState : HState) (now : ℕ) (_c : Ctrl) : Ctrl :=
  ⟨newState, now⟩

/-- The C++ static initialization of the globals:
`State currentState = IDLE; unsigned long stateStartTime = 0;`. -/
def initCtrl : Ctrl := ⟨.IDLE, 0⟩

/-- `setup()`: configures pin modes (no level is written to the heater
or LED pin) and calls `changeState(IDLE)`. -/
def setup (now : ℕ) : SetupResult :=
  ⟨changeState .IDLE now initCtrl, none, none⟩

/-- LM75 register decode for a successful 2-byte read:
`int16_t tempRaw = ((msb << 8) | lsb) >> 7;` on promoted non-negative
ints, then `tempRaw * 0.5`. -/
def lm75Decode (msb lsb : ℕ) : ℚ :=
  (((msb % 256) * 256 + lsb % 256) / 2 ^ 7 : ℕ) * (1 / 2)

/-- `readTemperature()`: decodes the two bytes when the I2C read
delivers them, and returns the sentinel `-100.0` when fewer than two
bytes are available. -/
def readTemperature (bytes : Option (ℕ × ℕ)) : ℚ :=
  match bytes with
  | some (msb, lsb) => lm75Decode msb lsb
  | none => -100

/-- One call of `loop()` given the temperature just read and the current
`millis()` value: the per-state `switch`, followed by the global
overheat check `temp >= overheatTemp && currentState != OVERHEAT`
(which reads `currentState` as left by the switch). -/
def loop (c : Ctrl) (temp : ℚ) (now : ℕ) : TickResult :=
  let r1 : TickResult :=
    match c.currentState with
    | .IDLE =>
        if temp < targetTemp - hysteresis then
          ⟨changeState .HEATING now c, none, none, 1⟩
        else ⟨c, none, none, 0⟩
    | .HEATING =>
        if targetTemp ≤ temp then
          ⟨changeState .STABILIZING now c, some true, none, 1⟩
        else ⟨c, some true, none, 0⟩
    | .STABILIZING =>
        if stabilizingTime ≤ elapsed32 now c.stateStartTime then
          ⟨changeState .TARGET_REACHED now c, some false, none, 1⟩
        else ⟨c, some false, none, 0⟩
    | .TARGET_REACHED =>
        if temp < targetTemp - hysteresis then
          ⟨changeState .HEATING now c, some false, none, 1⟩
        else ⟨c, some false, none, 0⟩
    | .OVERHEAT =>
        if temp < targetTemp then
          ⟨changeState .IDLE now c, some false, some false, 1⟩
        else ⟨c, some false, some true, 0⟩
  if overheatTemp ≤ temp ∧ r1.ctrl.currentState ≠ .OVERHEAT then
    ⟨changeState .OVERHEAT now r1.ctrl, r1.heaterWrite, r1.ledWrite,
      r1.csCalls + 1⟩
  else r1

end LM75

namespace TMP36

/-- `const float targetTemp = 30.0;` -/
def targetTemp : ℚ := 30

/-- `const float overheatTemp = 40.0;` -/
def overheatTemp : ℚ := 40

/-- `const unsigned long stabilizingTime = 5000;` -/
def stabilizingTime : ℕ := 5000

/-- `changeState(newState)`: sets `currentState = newState` and
`stateStartTime = millis()` (the serial logging has no modelled
effect). -/
def changeState (newState : HState) (now : ℕ) (_c : Ctrl) : Ctrl :=
  ⟨newState, now⟩

/-- Static initialization: `HeaterState currentState = IDLE;
unsigned long stateStartTime = 0;`. -/
def initCtrl : Ctrl := ⟨.IDLE, 0⟩

/-- `setup()`: writes the heater pin LOW (`digitalWrite(HEATER_PIN,
LOW)`) and calls `changeState(IDLE)`. -/
def setup (now : ℕ) : SetupResult :=
  ⟨changeState .IDLE now initCtrl, some false, none⟩

/-- `readTemperature()`: TMP36 analog conversion
`(analogValue * (5.0/1023.0) - 0.5) * 100`. -/
def readTemperature (analogValue : ℕ) : ℚ :=
  ((analogValue : ℚ) * (5 / 1023) - 1 / 2) * 100

/-- One call of `loop()`: the per-state `switch`; `HEATING`,
`STABILIZING` and `TARGET_REACHED` each run their own transition `if`
followed by a strict overheat check `temp > overheatTemp`; `IDLE` and
`OVERHEAT` have no overheat check. -/
def loop (c : Ctrl) (temp : ℚ) (now : ℕ) : TickResult :=
  match c.currentState with
  | .IDLE =>
      if temp < targetTemp then
        ⟨changeState .HEATING now c, some false, none, 1⟩
      else ⟨c, some false, none, 0⟩
  | .HEATING =>
      let c1 := if targetTemp ≤ temp then changeState .STABILIZING now c
        else c
      let k1 : ℕ := if targetTemp ≤ temp then 1 else 0
      if overheatTemp < temp then
        ⟨changeState .OVERHEAT now c1, some true, none, k1 + 1⟩
      else ⟨c1, some true, none, k1⟩
  | .STABILIZING =>
      let c1 := if stabilizingTime ≤ elapsed32 now c.stateStartTime then
        changeState .TARGET_REACHED now c else c
      let k1 : ℕ := if stabilizingTime ≤ elapsed32 now c.stateStartTime
        then 1 else 0
      if overheatTemp < temp then
        ⟨changeState .OVERHEAT now c1, some false, none, k1 + 1⟩
      else ⟨c1, some false, none, k1⟩
  | .TARGET_REACHED =>
      let c1 := if temp < targetTemp - 2 then changeState .HEATING now c
        else c
      let k1 : ℕ := if temp < targetTemp - 2 then 1 else 0
      if overheatTemp < temp then
        ⟨changeState .OVERHEAT now c1, some false, none, k1 + 1⟩
      else ⟨c1, some false, none, k1⟩
  | .OVERHEAT =>
      if temp < targetTemp - 5 then
        ⟨changeState .IDLE now c, some false, none, 1⟩
      else ⟨c, some false, none, 0⟩

end TMP36

/-- Heater command issued by one LM75 `loop` call as a function of the
state the call starts in: `IDLE` issues no heater write, `HEATING` runs
`controlHeater(true)`, the other three run `controlHeater(false)`. -/
def heaterCommandOfStart : HState → Option Bool
  | .IDLE => none
  | .HEATING => some true
  | .STABILIZING => some false
  | .TARGET_REACHED => some false
  | .OVERHEAT => some false

/-- C10: in the LM75 variant a tick starting in `IDLE` never writes the
heater pin (the `IDLE` branch has no `controlHeater`/`digitalWrite` on
the heater pin), and `setup` writes no level to the heater pin either
(it only calls `pinMode`), so during `IDLE` the heater pin retains the
last command issued in a previous state. -/
theorem c10_idle_never_writes_heater :
    (∀ ts temp now,
      (LM75.loop ⟨.IDLE, ts⟩ temp now).heaterWrite = none) ∧
    (∀ now, (LM75.setup now).heaterWrite = none) := by
  refine ⟨fun ts temp now => ?_, fun now => rfl⟩
  simp only [LM75.loop]
  split_ifs <;> rfl

/-- C9: in the LM75 variant a failed sensor read yields the sentinel
`-100.0`, which satisfies `temp < targetTemp - hysteresis`, so a tick
starting in `IDLE` or `TARGET_REACHED` under sensor failure transitions
to `HEATING`, and the following tick (now in `HEATING`) energizes the
heater. -/
theorem c9_sentinel_reaches_heating :
    LM75.readTemperature none = -100 ∧
    LM75.readTemperature none < LM75.targetTemp - LM75.hysteresis ∧
    (∀ ts now, (LM75.loop ⟨.IDLE, ts⟩ (LM75.readTemperature none)
      now).ctrl.currentState = .HEATING) ∧
    (∀ ts now, (LM75.loop ⟨.TARGET_REACHED, ts⟩ (LM75.readTemperature none)
      now).ctrl.currentState = .HEATING) ∧
    (∀ ts now1 now2,
      (LM75.loop (LM75.loop ⟨.IDLE, ts⟩ (LM75.readTemperature none)
        now1).ctrl (LM75.readTemperature none) now2).heaterWrite
        = some true) := by
  refine ⟨rfl, by norm_num [LM75.readTemperature, LM75.targetTemp,
    LM75.hysteresis], fun ts now => ?_, fun ts now => ?_,
    fun ts now1 now2 => ?_⟩ <;>
    norm_num [LM75.loop, LM75.changeState, LM75.readTemperature,
      LM75.targetTemp, LM75.hysteresis, LM75.overheatTemp]

/-- C3 counterexample: the claim says a failed sensor read leaves the
state unchanged and reports an error; in the LM75 code the read returns
the in-band sentinel `-100.0` and the tick runs the normal transition
logic on it, so a tick from `IDLE` moves to `HEATING`. -/
theorem c3_counterexample :
    LM75.readTemperature none = -100 ∧
    (LM75.loop ⟨.IDLE, 0⟩ (LM75.readTemperature none)
      100).ctrl.currentState = .HEATING ∧
    (LM75.loop ⟨.IDLE, 0⟩ (LM75.readTemperature none)
      100).ctrl.currentState ≠ .IDLE := by
  refine ⟨rfl, ?_, ?_⟩ <;>
    norm_num [LM75.loop, LM75.changeState, LM75.readTemperature,
      LM75.targetTemp, LM75.hysteresis, LM75.overheatTemp] <;>
    decide

/-- C3 amended: on a failed sensor read the LM75 tick neither reports an
error nor holds the previous state: `readTemperature` returns the
in-band sentinel `-100.0` and the tick applies the ordinary transition
logic to it, so a tick from `IDLE` transitions to `HEATING` (with no
heater write, per the `IDLE` branch) and a tick from `TARGET_REACHED`
transitions to `HEATING` (writing the heater off, per that branch). -/
theorem c3_amended_failed_read_not_held :
    (∀ ts now,
      (LM75.loop ⟨.IDLE, ts⟩ (LM75.readTemperature none) now).ctrl
        = ⟨.HEATING, now⟩ ∧
      (LM75.loop ⟨.IDLE, ts⟩ (LM75.readTemperature none) now).heaterWrite
        = none) ∧
    (∀ ts now,
      (LM75.loop ⟨.TARGET_REACHED, ts⟩ (LM75.readTemperature none)
        now).ctrl = ⟨.HEATING, now⟩ ∧
      (LM75.loop ⟨.TARGET_REACHED, ts⟩ (LM75.readTemperature none)
        now).heaterWrite = some false) := by
  refine ⟨fun ts now => ⟨?_, ?_⟩, fun ts now => ⟨?_, ?_⟩⟩ <;>
    norm_num [LM75.loop, LM75.changeState, LM75.readTemperature,
      LM75.targetTemp, LM75.hysteresis, LM75.overheatTemp]

/-- C6: a tick starting in `OVERHEAT` (LM75 variant, target 40.0)
transitions to `IDLE` and clears the warning LED exactly when the
temperature is below the recovery threshold, which this variant takes to
be `targetTemp` itself; concretely, a reading of 39.9 leaves `OVERHEAT`
for `IDLE` with the warning written off. -/
theorem c6_overheat_recovery :
    (∀ ts temp now,
      ((LM75.loop ⟨.OVERHEAT, ts⟩ temp now).ctrl.currentState = .IDLE
        ↔ temp < LM75.targetTemp) ∧
      ((LM75.loop ⟨.OVERHEAT, ts⟩ temp now).ledWrite = some false
        ↔ temp < LM75.targetTemp)) ∧
    (LM75.loop ⟨.OVERHEAT, 0⟩ (39.9 : ℚ) 100).ctrl.currentState
      = .IDLE ∧
    (LM75.loop ⟨.OVERHEAT, 0⟩ (39.9 : ℚ) 100).ledWrite = some false := by
  refine ⟨fun ts temp now => ?_, ?_, ?_⟩
  · simp only [LM75.loop, LM75.changeState, LM75.targetTemp,
      LM75.hysteresis, LM75.overheatTemp]
    split_ifs <;> simp_all <;> linarith
  · norm_num [LM75.loop, LM75.changeState, LM75.targetTemp,
      LM75.overheatTemp]
  · norm_num [LM75.loop, LM75.changeState, LM75.targetTemp,
      LM75.overheatTemp]

/-- C2 counterexample: the heater output issued by a tick is not a pure
function of the resulting `currentState`: an LM75 tick starting in
`HEATING` with temperature 55 ends in `OVERHEAT` (resulting state says
heater must be off) yet the tick issued heater-on, because the `HEATING`
branch runs `controlHeater(true)` before the global overheat check. -/
theorem c2_counterexample :
    (LM75.loop ⟨.HEATING, 3⟩ 55 7).ctrl.currentState = .OVERHEAT ∧
    (LM75.loop ⟨.HEATING, 3⟩ 55 7).heaterWrite = some true := by
  refine ⟨?_, ?_⟩ <;>
    norm_num [LM75.loop, LM75.changeState, LM75.targetTemp,
      LM75.hysteresis, LM75.overheatTemp] <;> rfl

/-- C2 amended: whenever an LM75 tick starts in `OVERHEAT` the heater
command is off and the warning LED is written on, regardless of
temperature, until the recovery predicate `temp < targetTemp` is
satisfied (which clears the warning); and the heater output issued by a
tick is a pure function of the STARTING state — on in `HEATING`, off in
`STABILIZING`/`TARGET_REACHED`/`OVERHEAT`, and no write at all in
`IDLE`. -/
theorem c2_amended_heater_of_start :
    (∀ ts temp now,
      (LM75.loop ⟨.OVERHEAT, ts⟩ temp now).heaterWrite = some false ∧
      ((LM75.loop ⟨.OVERHEAT, ts⟩ temp now).ledWrite = some true
        ↔ ¬temp < LM75.targetTemp)) ∧
    (∀ c temp now,
      (LM75.loop c temp now).heaterWrite
        = heaterCommandOfStart c.currentState) := by
  constructor
  · intro ts temp now
    simp only [LM75.loop, LM75.changeState, LM75.targetTemp,
      LM75.overheatTemp]
    split_ifs <;> simp_all
  · rintro ⟨s, ts⟩ temp now
    cases s <;> simp only [LM75.loop, heaterCommandOfStart] <;>
      split_ifs <;> rfl

/-- C4 counterexample: in the TMP36 variant the `IDLE` predicate is the
bare target (`temp < targetTemp`, target 30), not the hysteresis floor,
so a tick from `IDLE` at 29 (which is ≥ targetTemp - 2) transitions to
`HEATING` although the claim says it must remain `IDLE`; and in the LM75
variant a tick from `IDLE` at 60 (≥ targetTemp - hysteresis) ends in
`OVERHEAT`, not `IDLE`. -/
theorem c4_counterexample :
    TMP36.targetTemp - 2 ≤ (29 : ℚ) ∧
    (TMP36.loop ⟨.IDLE, 0⟩ 29 50).ctrl.currentState = .HEATING ∧
    LM75.targetTemp - LM75.hysteresis ≤ (60 : ℚ) ∧
    (LM75.loop ⟨.IDLE, 0⟩ 60 50).ctrl.currentState = .OVERHEAT := by
  refine ⟨by norm_num [TMP36.targetTemp], ?_,
    by norm_num [LM75.targetTemp, LM75.hysteresis], ?_⟩ <;>
    norm_num [TMP36.loop, TMP36.changeState, TMP36.targetTemp,
      TMP36.overheatTemp, LM75.loop, LM75.changeState, LM75.targetTemp,
      LM75.hysteresis, LM75.overheatTemp] <;> rfl

/-- C4 amended: a tick from `IDLE` in the LM75 variant goes to `HEATING`
exactly when `temp < targetTemp - hysteresis`, and otherwise remains
`IDLE` unless `temp ≥ overheatTemp`, in which case the global check
sends it to `OVERHEAT`; in the TMP36 variant the `IDLE` predicate uses
the bare target with no hysteresis and no overheat exit: `HEATING`
exactly when `temp < targetTemp`, else `IDLE`. -/
theorem c4_amended_idle_transition :
    (∀ ts temp now,
      (LM75.loop ⟨.IDLE, ts⟩ temp now).ctrl.currentState
        = if temp < LM75.targetTemp - LM75.hysteresis then .HEATING
          else if LM75.overheatTemp ≤ temp then .OVERHEAT else .IDLE) ∧
    (∀ ts temp now,
      (TMP36.loop ⟨.IDLE, ts⟩ temp now).ctrl.currentState
        = if temp < TMP36.targetTemp then .HEATING else .IDLE) := by
  constructor
  · intro ts temp now
    simp only [LM75.loop, LM75.changeState, LM75.targetTemp,
      LM75.hysteresis, LM75.overheatTemp]
    split_ifs <;> simp_all <;> linarith
  · intro ts temp now
    simp only [TMP36.loop, TMP36.changeState, TMP36.targetTemp]
    split_ifs <;> simp_all

/-- C1 counterexample: in the TMP36 variant a tick from `IDLE` at
temperature 45 (≥ overheatTemp = 40) stays in `IDLE` — there is no
overheat edge out of `IDLE` — refuting the universal single-tick
transition to `OVERHEAT`; and in the LM75 variant the override is
evaluated after, not before, the per-state predicate: a tick from
`HEATING` at 60 does end in `OVERHEAT` but still performs the
preceding `HEATING → STABILIZING` transition (two `changeState` calls)
and still issues heater-on. -/
theorem c1_counterexample :
    TMP36.overheatTemp ≤ (45 : ℚ) ∧
    (TMP36.loop ⟨.IDLE, 0⟩ 45 100).ctrl.currentState = .IDLE ∧
    (LM75.loop ⟨.HEATING, 0⟩ 60 100).ctrl.currentState = .OVERHEAT ∧
    (LM75.loop ⟨.HEATING, 0⟩ 60 100).csCalls = 2 ∧
    (LM75.loop ⟨.HEATING, 0⟩ 60 100).heaterWrite = some true := by
  refine ⟨by norm_num [TMP36.overheatTemp], ?_, ?_, ?_, ?_⟩ <;>
    norm_num [TMP36.loop, TMP36.changeState, TMP36.targetTemp,
      TMP36.overheatTemp, LM75.loop, LM75.changeState, LM75.targetTemp,
      LM75.hysteresis, LM75.overheatTemp] <;> rfl

/-- C1 amended: in the LM75 variant, any single tick from a state other
than `OVERHEAT` with `temp ≥ overheatTemp` ends in `OVERHEAT` (the
check is global, but it is evaluated after — not before — the per-state
logic, so it does not preempt the per-state transition or its heater
command); in the TMP36 variant the overheat check exists only in the
`HEATING`, `STABILIZING` and `TARGET_REACHED` branches and is strict
(`temp > overheatTemp`): a single tick from those states then ends in
`OVERHEAT`, while `IDLE` has no overheat edge. -/
theorem c1_amended_overheat_override (s : HState) (ts : ℕ) (temp : ℚ)
    (now : ℕ) (hs : s ≠ .OVERHEAT) :
    (LM75.overheatTemp ≤ temp →
      (LM75.loop ⟨s, ts⟩ temp now).ctrl.currentState = .OVERHEAT) ∧
    (TMP36.overheatTemp < temp → s ≠ .IDLE →
      (TMP36.loop ⟨s, ts⟩ temp now).ctrl.currentState = .OVERHEAT) := by
  constructor
  · intro h
    cases s <;>
      simp only [LM75.loop, LM75.changeState, LM75.targetTemp,
        LM75.hysteresis, LM75.overheatTemp] at * <;>
      split_ifs <;> simp_all
  · intro h hsI
    cases s <;>
      simp only [TMP36.loop, TMP36.changeState, TMP36.targetTemp,
        TMP36.overheatTemp] at * <;>
      split_ifs <;> simp_all

/-- C1 witness: the amended override theorem applied at concrete
inputs. -/
theorem c1_amended_overheat_override_witness :
    (LM75.loop ⟨.IDLE, 0⟩ 50 5).ctrl.currentState = .OVERHEAT ∧
    (TMP36.loop ⟨.HEATING, 0⟩ 41 5).ctrl.currentState = .OVERHEAT :=
  ⟨(c1_amended_overheat_override .IDLE 0 50 5 (by decide)).1
      (by norm_num [LM75.overheatTemp]),
    (c1_amended_overheat_override .HEATING 0 41 5 (by decide)).2
      (by norm_num [TMP36.overheatTemp]) (by decide)⟩

/-- With a monotone clock that has not wrapped since the state was
entered, the u32 wraparound difference agrees with plain subtraction. -/
theorem elapsed32_eq_sub (ts now : ℕ) (h1 : ts ≤ now)
    (h2 : now - ts < 2 ^ 32) : elapsed32 now ts = now - ts := by
  unfold elapsed32
  have hp : (2 : ℕ) ^ 32 = 4294967296 := by norm_num
  rw [hp] at *
  omega

/-- C5 counterexample: a tick from `STABILIZING` (LM75 variant) with
temperature 60 ends in `OVERHEAT`, both when the dwell time has elapsed
(now = 6000, entered at 0, stabilizingTime = 5000 — the claim demands
`TARGET_REACHED`) and when it has not (now = 100 — the claim demands
the state stay `STABILIZING` even if the temperature is far above
target). -/
theorem c5_counterexample :
    LM75.stabilizingTime ≤ 6000 - 0 ∧
    (LM75.loop ⟨.STABILIZING, 0⟩ 60 6000).ctrl.currentState
      = .OVERHEAT ∧
    (100 : ℕ) - 0 < LM75.stabilizingTime ∧
    (LM75.loop ⟨.STABILIZING, 0⟩ 60 100).ctrl.currentState
      = .OVERHEAT := by
  refine ⟨by norm_num [LM75.stabilizingTime], ?_,
    by norm_num [LM75.stabilizingTime], ?_⟩ <;>
    norm_num [LM75.loop, LM75.changeState, LM75.targetTemp,
      LM75.overheatTemp, LM75.stabilizingTime, elapsed32] <;> rfl

/-- C5 amended: provided the temperature is below the overheat
threshold, a tick from `STABILIZING` (LM75 variant) promotes to
`TARGET_REACHED` if and only if `now - stateEnteredAt ≥
stabilizingTime`, and any earlier tick leaves the controller state
(including the timestamp) unchanged regardless of the temperature;
with `temp ≥ overheatTemp` the tick instead ends in `OVERHEAT`. -/
theorem c5_amended_stabilizing_dwell (temp : ℚ) (ts now : ℕ)
    (h1 : ts ≤ now) (h2 : now - ts < 2 ^ 32)
    (h3 : temp < LM75.overheatTemp) :
    ((LM75.loop ⟨.STABILIZING, ts⟩ temp now).ctrl.currentState
      = .TARGET_REACHED ↔ LM75.stabilizingTime ≤ now - ts) ∧
    (now - ts < LM75.stabilizingTime →
      LM75.loop ⟨.STABILIZING, ts⟩ temp now
        = ⟨⟨.STABILIZING, ts⟩, some false, none, 0⟩) := by
  have he : elapsed32 now ts = now - ts := elapsed32_eq_sub ts now h1 h2
  simp only [LM75.loop, LM75.changeState, LM75.overheatTemp,
    LM75.stabilizingTime, he] at *
  split_ifs <;> simp_all <;> linarith

/-- C5 witness: the amended dwell theorem applied at concrete inputs
(entered at 0, polled at 6000 and at 100, temperature 41 < 50). -/
theorem c5_amended_stabilizing_dwell_witness :
    ((LM75.loop ⟨.STABILIZING, 0⟩ 41 6000).ctrl.currentState
      = .TARGET_REACHED ↔ LM75.stabilizingTime ≤ 6000 - 0) ∧
    ((100 : ℕ) - 0 < LM75.stabilizingTime →
      LM75.loop ⟨.STABILIZING, 0⟩ 41 100
        = ⟨⟨.STABILIZING, 0⟩, some false, none, 0⟩) :=
  ⟨(c5_amended_stabilizing_dwell 41 0 6000 (by norm_num)
      (by norm_num) (by norm_num [LM75.overheatTemp])).1,
    (c5_amended_stabilizing_dwell 41 0 100 (by norm_num)
      (by norm_num) (by norm_num [LM75.overheatTemp])).2⟩

/-- C7 counterexample: `setup()` calls `changeState(IDLE)` while the
statically initialized state is already `IDLE`, so `stateStartTime` is
updated (0 → 5 when `millis()` = 5) without `currentState` changing —
the timestamp is reset without a state change. -/
theorem c7_counterexample :
    (LM75.setup 5).ctrl.currentState = LM75.initCtrl.currentState ∧
    (LM75.setup 5).ctrl.stateStartTime = 5 ∧
    LM75.initCtrl.stateStartTime = 0 ∧
    (TMP36.setup 5).ctrl.currentState = TMP36.initCtrl.currentState ∧
    (TMP36.setup 5).ctrl.stateStartTime = 5 ∧
    TMP36.initCtrl.stateStartTime = 0 := by
  exact ⟨rfl, rfl, rfl, rfl, rfl, rfl⟩

/-- C7 amended: in every `loop` call of either variant, `stateStartTime`
is written (that is, `changeState` runs at least once) exactly when
`currentState` changes over the call, and then the pair is set
atomically — the final timestamp is the old value when no `changeState`
ran and `now` otherwise; `setup`, however, re-enters `IDLE` from the
initial `IDLE` state, resetting the timestamp without a state change. -/
theorem c7_amended_timestamp_pairing :
    (∀ c temp now,
      ((LM75.loop c temp now).csCalls ≠ 0 ↔
        (LM75.loop c temp now).ctrl.currentState ≠ c.currentState) ∧
      (LM75.loop c temp now).ctrl.stateStartTime
        = (if (LM75.loop c temp now).csCalls = 0 then c.stateStartTime
           else now)) ∧
    (∀ c temp now,
      ((TMP36.loop c temp now).csCalls ≠ 0 ↔
        (TMP36.loop c temp now).ctrl.currentState ≠ c.currentState) ∧
      (TMP36.loop c temp now).ctrl.stateStartTime
        = (if (TMP36.loop c temp now).csCalls = 0 then c.stateStartTime
           else now)) := by
  constructor
  · rintro ⟨s, ts⟩ temp now
    cases s <;>
      simp only [LM75.loop, LM75.changeState, LM75.targetTemp,
        LM75.hysteresis, LM75.overheatTemp] <;>
      split_ifs <;> simp_all <;> linarith
  · rintro ⟨s, ts⟩ temp now
    cases s <;>
      simp only [TMP36.loop, TMP36.changeState, TMP36.targetTemp,
        TMP36.overheatTemp] <;>
      split_ifs <;> simp_all

/-- Position of each state along the transition order that holds while
the temperature stays below the hysteresis floor (re-heating band):
`OVERHEAT → IDLE → HEATING` and `STABILIZING → TARGET_REACHED →
HEATING`, with `HEATING` absorbing. -/
def rankLo : HState → ℕ
  | .OVERHEAT => 0
  | .IDLE => 1
  | .STABILIZING => 2
  | .TARGET_REACHED => 3
  | .HEATING => 4

/-- Position of each state along the transition order that holds while
the temperature sits in the deadband (at or above the hysteresis floor,
below target): only `OVERHEAT → IDLE` and `STABILIZING →
TARGET_REACHED` can fire. -/
def rankMid : HState → ℕ
  | .OVERHEAT => 0
  | .STABILIZING => 1
  | .TARGET_REACHED => 2
  | .IDLE => 3
  | .HEATING => 4

/-- Position of each state along the transition order that holds at or
above target: `HEATING → STABILIZING → TARGET_REACHED` and (above the
overheat threshold) anything `→ OVERHEAT`, with `OVERHEAT` absorbing. -/
def rankHi : HState → ℕ
  | .HEATING => 0
  | .STABILIZING => 1
  | .TARGET_REACHED => 2
  | .IDLE => 3
  | .OVERHEAT => 4

/-- Transition-order rank for the LM75 variant at a fixed temperature. -/
def rankA (temp : ℚ) (s : HState) : ℕ :=
  if temp < LM75.targetTemp - LM75.hysteresis then rankLo s
  else if temp < LM75.targetTemp then rankMid s
  else rankHi s

/-- Transition-order rank for the TMP36 variant at a fixed temperature
(its hysteresis floor is the literal `targetTemp - 2` of the
`TARGET_REACHED` branch). -/
def rankB (temp : ℚ) (s : HState) : ℕ :=
  if temp < TMP36.targetTemp - 2 then rankLo s
  else if temp < TMP36.targetTemp then rankMid s
  else rankHi s

theorem rankLo_inj : ∀ s t : HState, rankLo s = rankLo t → s = t := by
  decide

theorem rankMid_inj : ∀ s t : HState, rankMid s = rankMid t → s = t := by
  decide

theorem rankHi_inj : ∀ s t : HState, rankHi s = rankHi t → s = t := by
  decide

theorem rankLo_le_four : ∀ s, rankLo s ≤ 4 := by decide

theorem rankMid_le_four : ∀ s, rankMid s ≤ 4 := by decide

theorem rankHi_le_four : ∀ s, rankHi s ≤ 4 := by decide

theorem rankA_inj (temp : ℚ) :
    ∀ s t : HState, rankA temp s = rankA temp t → s = t := by
  intro s t
  unfold rankA
  split_ifs <;> first
    | exact rankLo_inj s t
    | exact rankMid_inj s t
    | exact rankHi_inj s t

theorem rankB_inj (temp : ℚ) :
    ∀ s t : HState, rankB temp s = rankB temp t → s = t := by
  intro s t
  unfold rankB
  split_ifs <;> first
    | exact rankLo_inj s t
    | exact rankMid_inj s t
    | exact rankHi_inj s t

theorem rankA_le_four (temp : ℚ) : ∀ s, rankA temp s ≤ 4 := by
  intro s
  unfold rankA
  split_ifs <;> first
    | exact rankLo_le_four s
    | exact rankMid_le_four s
    | exact rankHi_le_four s

theorem rankB_le_four (temp : ℚ) : ∀ s, rankB temp s ≤ 4 := by
  intro s
  unfold rankB
  split_ifs <;> first
    | exact rankLo_le_four s
    | exact rankMid_le_four s
    | exact rankHi_le_four s

/-- Each LM75 tick either leaves the state unchanged or moves it
strictly up the transition order for the (fixed) temperature. -/
theorem stepA_rank (c : Ctrl) (temp : ℚ) (now : ℕ) :
    (LM75.loop c temp now).ctrl.currentState = c.currentState ∨
      rankA temp c.currentState
        < rankA temp (LM75.loop c temp now).ctrl.currentState := by
  obtain ⟨s, ts⟩ := c
  cases s <;>
    simp only [LM75.loop, LM75.changeState, LM75.targetTemp,
      LM75.hysteresis, LM75.overheatTemp, rankA, rankLo, rankMid,
      rankHi] <;>
    split_ifs <;> simp_all <;> linarith

/-- Each TMP36 tick either leaves the state unchanged or moves it
strictly up the transition order for the (fixed) temperature. -/
theorem stepB_rank (c : Ctrl) (temp : ℚ) (now : ℕ) :
    (TMP36.loop c temp now).ctrl.currentState = c.currentState ∨
      rankB temp c.currentState
        < rankB temp (TMP36.loop c temp now).ctrl.currentState := by
  obtain ⟨s, ts⟩ := c
  cases s <;>
    simp only [TMP36.loop, TMP36.changeState, TMP36.targetTemp,
      TMP36.overheatTemp, rankB, rankLo, rankMid, rankHi] <;>
    split_ifs <;> simp_all <;> linarith

/-- The LM75 polling loop iterated n times from controller state `c`
with a constant temperature and an arbitrary clock-reading sequence
`clk` (call k is made at `millis() = clk k`). -/
def runA (c : Ctrl) (temp : ℚ) (clk : ℕ → ℕ) : ℕ → Ctrl
  | 0 => c
  | n + 1 => (LM75.loop (runA c temp clk n) temp (clk n)).ctrl

/-- The TMP36 polling loop iterated n times, as `runA`. -/
def runB (c : Ctrl) (temp : ℚ) (clk : ℕ → ℕ) : ℕ → Ctrl
  | 0 => c
  | n + 1 => (TMP36.loop (runB c temp clk n) temp (clk n)).ctrl

/-- A state sequence that moves strictly up a bounded injective rank
whenever it moves at all reaches a state it never leaves, and never
returns to a state it has left. -/
theorem rank_seq_stabilizes (g : ℕ → HState) (f : HState → ℕ)
    (hstep : ∀ n, g (n + 1) = g n ∨ f (g n) < f (g (n + 1)))
    (hbound : ∀ s, f s ≤ 4)
    (hinj : ∀ s t, f s = f t → s = t) :
    (∃ N, ∀ n, N ≤ n → g n = g N) ∧
    (∀ i j k, i ≤ j → j ≤ k → g i = g k → g j = g i) := by
  have hmono : ∀ m n, m ≤ n → f (g m) ≤ f (g n) := by
    intro m n hmn
    induction n, hmn using Nat.le_induction with
    | base => exact le_refl _
    | succ n hmn ih =>
        rcases hstep n with h | h
        · rw [h]; exact ih
        · exact ih.trans h.le
  have hrev : ∀ i j k, i ≤ j → j ≤ k → g i = g k → g j = g i := by
    intro i j k hij hjk hik
    apply hinj
    have h1 := hmono i j hij
    have h2 := hmono j k hjk
    have h3 : f (g k) = f (g i) := by rw [hik]
    omega
  refine ⟨?_, hrev⟩
  by_contra hno
  push_neg at hno
  have key : ∀ m, ∃ n, m ≤ n ∧ f (g m) < f (g n) := by
    intro m
    obtain ⟨n, hn, hne⟩ := hno m
    refine ⟨n, hn, lt_of_le_of_ne (hmono m n hn) fun he => hne ?_⟩
    exact hinj _ _ he.symm
  obtain ⟨n1, _, h1⟩ := key 0
  obtain ⟨n2, _, h2⟩ := key n1
  obtain ⟨n3, _, h3⟩ := key n2
  obtain ⟨n4, _, h4⟩ := key n3
  obtain ⟨n5, _, h5⟩ := key n4
  have hb := hbound (g n5)
  omega

/-- C8: with the temperature held fixed and an arbitrary sequence of
clock readings, repeated `loop` calls never oscillate in either
variant: the state sequence reaches a state it never leaves, and a
state once left is never re-entered (no cycle is traversed). -/
theorem c8_constant_temp_no_oscillation (cA cB : Ctrl) (temp : ℚ)
    (clk : ℕ → ℕ) :
    ((∃ N, ∀ n, N ≤ n → (runA cA temp clk n).currentState
        = (runA cA temp clk N).currentState) ∧
      (∀ i j k, i ≤ j → j ≤ k →
        (runA cA temp clk i).currentState
          = (runA cA temp clk k).currentState →
        (runA cA temp clk j).currentState
          = (runA cA temp clk i).currentState)) ∧
    ((∃ N, ∀ n, N ≤ n → (runB cB temp clk n).currentState
        = (runB cB temp clk N).currentState) ∧
      (∀ i j k, i ≤ j → j ≤ k →
        (runB cB temp clk i).currentState
          = (runB cB temp clk k).currentState →
        (runB cB temp clk j).currentState
          = (runB cB temp clk i).currentState)) := by
  constructor
  · exact rank_seq_stabilizes
      (fun n => (runA cA temp clk n).currentState) (rankA temp)
      (fun n => stepA_rank (runA cA temp clk n) temp (clk n))
      (rankA_le_four temp) (rankA_inj temp)
  · exact rank_seq_stabilizes
      (fun n => (runB cB temp clk n).currentState) (rankB temp)
      (fun n => stepB_rank (runB cB temp clk n) temp (clk n))
      (rankB_le_four temp) (rankB_inj temp)

/-- C8 witness: the no-revisit part applied concretely — at a constant
39 degrees the LM75 controller started in `IDLE` stays `IDLE` across
ticks 0, 1, 2. -/
theorem c8_constant_temp_no_oscillation_witness :
    (runA ⟨.IDLE, 0⟩ 39 (fun k => k) 1).currentState
      = (runA ⟨.IDLE, 0⟩ 39 (fun k => k) 0).currentState :=
  (c8_constant_temp_no_oscillation ⟨.IDLE, 0⟩ ⟨.IDLE, 0⟩ 39
      (fun k => k)).1.2 0 1 2 (by norm_num) (by norm_num)
    (by norm_num [runA, LM75.loop, LM75.changeState, LM75.targetTemp,
      LM75.hysteresis, LM75.overheatTemp])
